import Mathlib

/-!
Verification development for the TRUST airdrop claim-stats dashboard
(single source file src/src/App.tsx).

The embedding models:
  * JavaScript numbers as an inductive type JsNum (NaN, plus/minus infinity,
    or a finite value modelled as an exact rational; IEEE-754 rounding is
    idealised away, which is faithful for every property proved here since
    none of them depends on rounding: comparisons with zero, x/x for a
    nonzero x, 0/x, and min/max clamping are exact in both models);
  * uint256 balances (ethers bigint values) as Nat;
  * the two build-time decimal constants via parseUnits with 18 decimals;
  * the per-cell load state (the LoadState record of App.tsx) and the
    component state of the five cells plus the refreshing flag;
  * the derivation useMemo body (App.tsx lines 148-220) as the pure
    function derivedCore / derivedOf;
  * the fetchAll / fetchPrice orchestration (App.tsx lines 95-140) as a
    sequential run function on the state plus an event trace, with the
    outcome of each remote read supplied as an Except value.
-/

/-- JsNum models a JavaScript IEEE-754 double at the level of detail the
dashboard needs: not-a-number, the two infinities, or an exact finite
rational value. -/
inductive JsNum where
  | nan
  | posInf
  | negInf
  | fin (q : ℚ)
deriving DecidableEq

/-- Number.isFinite from App.tsx line 49. -/
def JsNum.isFinite : JsNum → Bool
  | .fin _ => true
  | _ => false

/-- Math.min semantics: NaN is absorbing, otherwise the usual order with
negative infinity as bottom. -/
def jsMin : JsNum → JsNum → JsNum
  | .nan, _ => .nan
  | _, .nan => .nan
  | .negInf, _ => .negInf
  | _, .negInf => .negInf
  | .posInf, y => y
  | x, .posInf => x
  | .fin a, .fin b => .fin (min a b)

/-- Math.max semantics: NaN is absorbing, otherwise the usual order with
positive infinity as top. -/
def jsMax : JsNum → JsNum → JsNum
  | .nan, _ => .nan
  | _, .nan => .nan
  | .posInf, _ => .posInf
  | _, .posInf => .posInf
  | .negInf, y => y
  | x, .negInf => x
  | .fin a, .fin b => .fin (max a b)

/-- JavaScript multiplication on JsNum (sign rules for infinities,
infinity times zero is NaN). The dashboard only ever multiplies finite
values. -/
def jsMul : JsNum → JsNum → JsNum
  | .nan, _ => .nan
  | _, .nan => .nan
  | .posInf, .posInf => .posInf
  | .posInf, .negInf => .negInf
  | .negInf, .posInf => .negInf
  | .negInf, .negInf => .posInf
  | .posInf, .fin q => if 0 < q then .posInf else if q < 0 then .negInf else .nan
  | .negInf, .fin q => if 0 < q then .negInf else if q < 0 then .posInf else .nan
  | .fin q, .posInf => if 0 < q then .posInf else if q < 0 then .negInf else .nan
  | .fin q, .negInf => if 0 < q then .negInf else if q < 0 then .posInf else .nan
  | .fin a, .fin b => .fin (a * b)

/-- clamp01 from App.tsx lines 48-49:
Number.isFinite(x) then Math.max(0, Math.min(1, x)) else 0. -/
def clamp01 (x : JsNum) : JsNum :=
  if x.isFinite then jsMax (.fin 0) (jsMin (.fin 1) x) else .fin 0

/-- DECIMALS constant, App.tsx line 42. -/
def DECIMALS : ℕ := 18

/-- ALLOCATED_AIRDROP = parseUnits of the decimal string 35921361.0640907
at 18 decimals (App.tsx line 38): the integer count of smallest units. -/
def ALLOCATED_AIRDROP : ℕ := 35921361064090700000000000

/-- CLAIMABLE_FIRST_3 = parseUnits of the decimal string 18180720.53204535
at 18 decimals (App.tsx line 39). -/
def CLAIMABLE_FIRST_3 : ℕ := 18180720532045350000000000

/-- Number(formatUnits(n, 18)) from App.tsx line 46, idealised as the exact
rational n divided by ten to the eighteenth. -/
def toUnitsQ (n : ℕ) : ℚ := (n : ℚ) / 10 ^ DECIMALS

/-- The record returned by the derivation useMemo (App.tsx lines 193-218).
Integer-scaled amounts are Nat (bigint in the source); the human-display
floats are exact rationals; the ratio fields, which can be NaN, and the
projection fields are JsNum. -/
structure DerivedSnapshot where
  allocated : ℕ
  claimable3 : ℕ
  hub : ℕ
  bonded : ℕ
  vault : ℕ
  locker : ℕ
  totalClaimed : ℕ
  bridgedToBase : ℕ
  left3 : ℕ
  leftTotal : ℕ
  claimedF : ℚ
  bondedF : ℚ
  bridgedF : ℚ
  left3F : ℚ
  claimed3F : ℚ
  claimable3F : ℚ
  allocatedF : ℚ
  ratioBondedOfClaimed : JsNum
  pctClaimed3 : JsNum
  pctClaimedAll : JsNum
  extraSell : JsNum
  extraSell15 : JsNum
  extraSell2 : JsNum
deriving DecidableEq

/-- The derivation body (App.tsx lines 148-218), parameterised by the two
build-time constants (they are configuration, section 6 of the spec) and by
the optional settled data of the four balance cells; a missing datum falls
back to zero exactly as the source's hubBal.data or-else-0n does. -/
def derivedCore (ALLOCATED CLAIMABLE3 : ℕ)
    (hubData bondedData vaultData lockerData : Option ℕ) : DerivedSnapshot :=
  let allocated := ALLOCATED
  let claimable3 := CLAIMABLE3
  let hub := hubData.getD 0
  let bonded := bondedData.getD 0
  let vault := vaultData.getD 0
  let locker := lockerData.getD 0
  let totalClaimed := if allocated > vault + locker then allocated - (vault + locker) else 0
  let bridgedToBase := if allocated > hub then allocated - hub else 0
  let left3 := if claimable3 > totalClaimed then claimable3 - totalClaimed else 0
  let leftTotal := if allocated > totalClaimed then allocated - totalClaimed else 0
  let claimedF := toUnitsQ totalClaimed
  let bondedF := toUnitsQ bonded
  let bridgedF := toUnitsQ bridgedToBase
  let left3F := toUnitsQ left3
  let claimable3F := toUnitsQ claimable3
  let allocatedF := toUnitsQ allocated
  let claimed3 := if totalClaimed > claimable3 then claimable3 else totalClaimed
  let claimed3F := toUnitsQ claimed3
  let ratioBondedOfClaimed := if claimedF > 0 then JsNum.fin (bondedF / claimedF) else JsNum.nan
  let pctClaimed3 := if claimable3F > 0 then JsNum.fin (claimed3F / claimable3F) else JsNum.nan
  let pctClaimedAll := if allocatedF > 0 then JsNum.fin (claimedF / allocatedF) else JsNum.nan
  let pBridge := clamp01 (if claimed3F > 0 then JsNum.fin (bridgedF / claimed3F) else JsNum.fin 0)
  let extraSell := jsMul (JsNum.fin left3F) pBridge
  let extraSell15 := jsMul extraSell (JsNum.fin (3 / 2))
  let extraSell2 := jsMul extraSell (JsNum.fin 2)
  { allocated := allocated
    claimable3 := claimable3
    hub := hub
    bonded := bonded
    vault := vault
    locker := locker
    totalClaimed := totalClaimed
    bridgedToBase := bridgedToBase
    left3 := left3
    leftTotal := leftTotal
    claimedF := claimedF
    bondedF := bondedF
    bridgedF := bridgedF
    left3F := left3F
    claimed3F := claimed3F
    claimable3F := claimable3F
    allocatedF := allocatedF
    ratioBondedOfClaimed := ratioBondedOfClaimed
    pctClaimed3 := pctClaimed3
    pctClaimedAll := pctClaimedAll
    extraSell := extraSell
    extraSell15 := extraSell15
    extraSell2 := extraSell2 }

/-- The derivation with the dashboard's actual constants baked in, as the
source has them. -/
def derivedSnapshot (hubData bondedData vaultData lockerData : Option ℕ) : DerivedSnapshot :=
  derivedCore ALLOCATED_AIRDROP CLAIMABLE_FIRST_3 hubData bondedData vaultData lockerData

lemma derivedCore_totalClaimed (A C : ℕ) (h b v l : Option ℕ) :
    (derivedCore A C h b v l).totalClaimed =
      if A > v.getD 0 + l.getD 0 then A - (v.getD 0 + l.getD 0) else 0 := rfl

lemma derivedCore_left3 (A C : ℕ) (h b v l : Option ℕ) :
    (derivedCore A C h b v l).left3 =
      if C > (derivedCore A C h b v l).totalClaimed
      then C - (derivedCore A C h b v l).totalClaimed else 0 := rfl

lemma derivedCore_ratioBondedOfClaimed (A C : ℕ) (h b v l : Option ℕ) :
    (derivedCore A C h b v l).ratioBondedOfClaimed =
      if toUnitsQ (derivedCore A C h b v l).totalClaimed > 0
      then JsNum.fin (toUnitsQ (b.getD 0) / toUnitsQ (derivedCore A C h b v l).totalClaimed)
      else JsNum.nan := rfl

lemma derivedCore_pctClaimed3 (A C : ℕ) (h b v l : Option ℕ) :
    (derivedCore A C h b v l).pctClaimed3 =
      if toUnitsQ C > 0
      then JsNum.fin (toUnitsQ (if (derivedCore A C h b v l).totalClaimed > C then C
              else (derivedCore A C h b v l).totalClaimed) / toUnitsQ C)
      else JsNum.nan := rfl

lemma derivedCore_pctClaimedAll (A C : ℕ) (h b v l : Option ℕ) :
    (derivedCore A C h b v l).pctClaimedAll =
      if toUnitsQ A > 0
      then JsNum.fin (toUnitsQ (derivedCore A C h b v l).totalClaimed / toUnitsQ A)
      else JsNum.nan := rfl

lemma toUnitsQ_zero : toUnitsQ 0 = 0 := by
  simp [toUnitsQ]

lemma toUnitsQ_pos {n : ℕ} (hn : 0 < n) : 0 < toUnitsQ n := by
  have : (0 : ℚ) < (n : ℚ) := by exact_mod_cast hn
  have hp : (0 : ℚ) < 10 ^ DECIMALS := by positivity
  exact div_pos this hp

/-- C1: for every combination of the four balance inputs, totalClaimed is
the clamped difference max(0, allocated minus (vault plus locker)), stated
over the integers. -/
theorem C1_totalClaimed_clamped_difference (h b v l : ℕ) :
    ((derivedSnapshot (some h) (some b) (some v) (some l)).totalClaimed : ℤ) =
      max 0 ((ALLOCATED_AIRDROP : ℤ) - ((v : ℤ) + (l : ℤ))) := by
  rw [derivedSnapshot, derivedCore_totalClaimed]
  simp only [Option.getD_some]
  split_ifs with hgt
  · have hle : v + l ≤ ALLOCATED_AIRDROP := le_of_lt hgt
    push_cast [Nat.cast_sub hle]
    omega
  · push_cast
    omega

/-- C4 counterexample: the claim says non-finite inputs map to the nearest
bound, and the bound nearest to positive infinity is 1; but clamp01 returns
0 for every non-finite input, positive infinity included. -/
theorem C4_counterexample_posInf :
    clamp01 JsNum.posInf = JsNum.fin 0 ∧ clamp01 JsNum.posInf ≠ JsNum.fin 1 := by
  constructor
  · rfl
  · decide

/-- C4 amended: clamp01 always lands in the closed interval from 0 to 1;
every non-finite input (NaN and both infinities) maps to 0; a finite input
below 0 maps to 0, a finite input above 1 maps to 1, and a finite input
already inside the interval is returned unchanged. -/
theorem C4_amended_clamp01_range :
    (∀ x : JsNum, ∃ q : ℚ, clamp01 x = JsNum.fin q ∧ 0 ≤ q ∧ q ≤ 1) ∧
    (∀ x : JsNum, x.isFinite = false → clamp01 x = JsNum.fin 0) ∧
    (∀ q : ℚ, q < 0 → clamp01 (JsNum.fin q) = JsNum.fin 0) ∧
    (∀ q : ℚ, 1 < q → clamp01 (JsNum.fin q) = JsNum.fin 1) ∧
    (∀ q : ℚ, 0 ≤ q → q ≤ 1 → clamp01 (JsNum.fin q) = JsNum.fin q) := by
  refine ⟨?_, ?_, ?_, ?_, ?_⟩
  · intro x
    cases x with
    | nan => exact ⟨0, rfl, le_refl 0, by norm_num⟩
    | posInf => exact ⟨0, rfl, le_refl 0, by norm_num⟩
    | negInf => exact ⟨0, rfl, le_refl 0, by norm_num⟩
    | fin q =>
        refine ⟨max 0 (min 1 q), ?_, le_max_left 0 _, ?_⟩
        · simp [clamp01, JsNum.isFinite, jsMin, jsMax]
        · exact max_le (by norm_num) (min_le_left 1 q)
  · intro x hx
    cases x with
    | nan => rfl
    | posInf => rfl
    | negInf => rfl
    | fin q => simp [JsNum.isFinite] at hx
  · intro q hq
    simp only [clamp01, JsNum.isFinite, if_true, jsMin, jsMax]
    have h1 : min 1 q = q := min_eq_right (le_trans hq.le (by norm_num))
    rw [h1]
    have h2 : max 0 q = 0 := max_eq_left hq.le
    rw [h2]
  · intro q hq
    simp only [clamp01, JsNum.isFinite, if_true, jsMin, jsMax]
    have h1 : min 1 q = 1 := min_eq_left hq.le
    rw [h1]
    have h2 : max (0 : ℚ) 1 = 1 := max_eq_right (by norm_num)
    rw [h2]
  · intro q h0 h1
    simp only [clamp01, JsNum.isFinite, if_true, jsMin, jsMax]
    rw [min_eq_right h1, max_eq_right h0]

/-- C4 amended witness at concrete inputs. -/
theorem C4_amended_clamp01_range_witness :
    clamp01 (JsNum.fin (-5)) = JsNum.fin 0 ∧ clamp01 (JsNum.fin 7) = JsNum.fin 1 := by
  constructor
  · exact C4_amended_clamp01_range.2.2.1 (-5) (by norm_num)
  · exact C4_amended_clamp01_range.2.2.2.1 7 (by norm_num)

/-- C5: whenever a ratio field's denominator is zero — pctClaimed3 when the
CLAIMABLE constant is zero, pctClaimedAll when the ALLOCATED constant is
zero, ratioBondedOfClaimed when totalClaimed is zero — the derivation
yields the NaN sentinel for that field; the derivation is a total function,
so no exception is possible. The derivation is parameterised by the two
build-time constants so that the zero-denominator configurations of the
spec's scenario 5 are expressible. -/
theorem C5_zero_denominator_yields_nan (A C : ℕ) (h b v l : Option ℕ) :
    (C = 0 → (derivedCore A C h b v l).pctClaimed3 = JsNum.nan) ∧
    (A = 0 → (derivedCore A C h b v l).pctClaimedAll = JsNum.nan) ∧
    ((derivedCore A C h b v l).totalClaimed = 0 →
      (derivedCore A C h b v l).ratioBondedOfClaimed = JsNum.nan) := by
  refine ⟨?_, ?_, ?_⟩
  · intro hC
    rw [derivedCore_pctClaimed3, hC, toUnitsQ_zero]
    simp
  · intro hA
    rw [derivedCore_pctClaimedAll, hA, toUnitsQ_zero]
    simp
  · intro hT
    rw [derivedCore_ratioBondedOfClaimed, hT, toUnitsQ_zero]
    simp

/-- C5 witness: with both constants configured to zero and all four cells
settled at zero, all three ratio fields are the NaN sentinel. -/
theorem C5_zero_denominator_yields_nan_witness :
    (derivedCore 0 0 (some 0) (some 0) (some 0) (some 0)).pctClaimed3 = JsNum.nan ∧
    (derivedCore 0 0 (some 0) (some 0) (some 0) (some 0)).pctClaimedAll = JsNum.nan ∧
    (derivedCore 0 0 (some 0) (some 0) (some 0) (some 0)).ratioBondedOfClaimed = JsNum.nan := by
  have hmain := C5_zero_denominator_yields_nan 0 0 (some 0) (some 0) (some 0) (some 0)
  exact ⟨hmain.1 rfl, hmain.2.1 rfl, hmain.2.2 (by decide)⟩

/-- C6: with the built-in constants, a vault balance equal to parseUnits of
17740640.53204535 and a locker balance of zero (hub and bonded arbitrary),
totalClaimed equals CLAIMABLE_FIRST_3 exactly, left3 is zero, and
pctClaimed3 is exactly 1. -/
theorem C6_scenario3_first_phases_complete (h b : ℕ) :
    (derivedSnapshot (some h) (some b) (some 17740640532045350000000000) (some 0)).totalClaimed
        = CLAIMABLE_FIRST_3 ∧
    (derivedSnapshot (some h) (some b) (some 17740640532045350000000000) (some 0)).left3 = 0 ∧
    (derivedSnapshot (some h) (some b) (some 17740640532045350000000000) (some 0)).pctClaimed3
        = JsNum.fin 1 := by
  have htc : (derivedSnapshot (some h) (some b) (some 17740640532045350000000000)
      (some 0)).totalClaimed = CLAIMABLE_FIRST_3 := by
    rw [derivedSnapshot, derivedCore_totalClaimed]
    simp only [Option.getD_some]
    rw [if_pos (by norm_num [ALLOCATED_AIRDROP])]
    norm_num [ALLOCATED_AIRDROP, CLAIMABLE_FIRST_3]
  refine ⟨htc, ?_, ?_⟩
  · rw [derivedSnapshot, derivedCore_left3]
    rw [derivedSnapshot] at htc
    rw [htc, if_neg (lt_irrefl _)]
  · rw [derivedSnapshot, derivedCore_pctClaimed3]
    rw [derivedSnapshot] at htc
    rw [htc, if_neg (lt_irrefl _)]
    rw [if_pos (toUnitsQ_pos (by norm_num [CLAIMABLE_FIRST_3]))]
    have hne : toUnitsQ CLAIMABLE_FIRST_3 ≠ 0 :=
      ne_of_gt (toUnitsQ_pos (by norm_num [CLAIMABLE_FIRST_3]))
    rw [div_self hne]

/-- LoadState record from App.tsx line 64: loading flag plus optional
error message and optional data. -/
structure LoadState (T : Type) where
  loading : Bool
  error : Option String
  data : Option T
deriving DecidableEq

/-- A cell freshly set to pending, as in setHubBal of a record with only
loading true (App.tsx lines 115-118): the error and data fields are absent. -/
def pendingCell {T : Type} : LoadState T :=
  { loading := true, error := none, data := none }

/-- A cell settled successfully (App.tsx lines 126-129). -/
def successCell {T : Type} (v : T) : LoadState T :=
  { loading := false, error := none, data := some v }

/-- A cell settled as failed (App.tsx lines 133-136): only loading false
and the message, no data. -/
def failedCell {T : Type} (msg : String) : LoadState T :=
  { loading := false, error := some msg, data := none }

/-- The functional update of App.tsx lines 133-136: a cell still loading is
moved to failed with the batch's message, any other cell is left as it is. -/
def settleIfLoading {T : Type} (msg : String) (c : LoadState T) : LoadState T :=
  if c.loading then failedCell msg else c

/-- The component state of App.tsx lines 80-93: the four balance cells, the
price cell and the refreshing flag. -/
structure AppState where
  hubBal : LoadState ℕ
  bondedBal : LoadState ℕ
  vaultBal : LoadState ℕ
  lockerBal : LoadState ℕ
  priceUSD : LoadState JsNum
  refreshing : Bool
deriving DecidableEq

/-- The initial component state: every cell starts out loading (the
useState initialisers of App.tsx lines 80-92), refreshing false. -/
def initState : AppState :=
  { hubBal := pendingCell, bondedBal := pendingCell, vaultBal := pendingCell
    lockerBal := pendingCell, priceUSD := pendingCell, refreshing := false }

/-- The synchronous prefix of fetchAll (App.tsx lines 114-118): set the
refreshing flag and move the four balance cells to pending. The price cell
is not touched here. -/
def refreshStart (s : AppState) : AppState :=
  { s with refreshing := true, hubBal := pendingCell, bondedBal := pendingCell
           vaultBal := pendingCell, lockerBal := pendingCell }

/-- Promise.all over the four balance-read outcomes (App.tsx lines
120-125): resolves with the quadruple when every read resolves, otherwise
rejects with a rejection's message. JavaScript rejects with the temporally
first rejection; this model picks the first by position, which coincides
with the source whenever at most one read rejects — the situation every
claim below exercises. -/
def promiseAll4 (h b v l : Except String ℕ) : Except String (ℕ × ℕ × ℕ × ℕ) :=
  match h, b, v, l with
  | .ok hv, .ok bv, .ok vv, .ok lv => .ok (hv, bv, vv, lv)
  | .error e, _, _, _ => .error e
  | _, .error e, _, _ => .error e
  | _, _, .error e, _ => .error e
  | _, _, _, .error e => .error e

/-- One run of fetchPrice (App.tsx lines 95-110) given the outcome of the
HTTP read: the cell is set to pending, then settled with the numeric price
when the payload has one, with the message No price when it does not, or
with the caught message when the fetch rejects. -/
def fetchPriceRun (s : AppState) (price : Except String (Option JsNum)) : AppState :=
  let s1 := { s with priceUSD := pendingCell }
  match price with
  | .ok (some usd) => { s1 with priceUSD := successCell usd }
  | .ok none => { s1 with priceUSD := failedCell "No price" }
  | .error e => { s1 with priceUSD := failedCell e }

/-- One full run of fetchAll (App.tsx lines 113-140) given the outcomes of
the four balance reads and of the price read: the synchronous pending
prefix, then the Promise.all join; on resolution the four cells settle
successfully and fetchPrice runs; on rejection every cell still loading is
moved to failed with the batch's message and fetchPrice never runs. -/
def fetchAllRun (s0 : AppState) (h b v l : Except String ℕ)
    (price : Except String (Option JsNum)) : AppState :=
  let s1 := refreshStart s0
  match promiseAll4 h b v l with
  | .ok (hv, bv, vv, lv) =>
      let s2 := { s1 with hubBal := successCell hv, bondedBal := successCell bv
                          vaultBal := successCell vv, lockerBal := successCell lv }
      let s3 := fetchPriceRun s2 price
      { s3 with refreshing := false }
  | .error msg =>
      { s1 with hubBal := settleIfLoading msg s1.hubBal
                bondedBal := settleIfLoading msg s1.bondedBal
                vaultBal := settleIfLoading msg s1.vaultBal
                lockerBal := settleIfLoading msg s1.lockerBal
                refreshing := false }

/-- The observable control-flow events of one fetchAll run. -/
inductive Event where
  | balanceReadsIssued
  | balanceBatchSettled (ok : Bool)
  | priceReadIssued
  | priceReadSettled
deriving DecidableEq

/-- The event trace of one fetchAll run (App.tsx lines 119-139): the four
balance reads are issued, their Promise.all join settles, and only on the
resolving branch is the price read issued (the await of fetchPrice on line
130 sits inside the try block, after the batch resolves). -/
def fetchAllTrace (h b v l : Except String ℕ) : List Event :=
  match promiseAll4 h b v l with
  | .ok _ => [Event.balanceReadsIssued, Event.balanceBatchSettled true,
              Event.priceReadIssued, Event.priceReadSettled]
  | .error _ => [Event.balanceReadsIssued, Event.balanceBatchSettled false]

/-- The derivation read off the component state, mirroring the useMemo
closure of App.tsx lines 148-220: it reads only the data fields of the four
balance cells, never the price cell. -/
def derivedOf (s : AppState) : DerivedSnapshot :=
  derivedCore ALLOCATED_AIRDROP CLAIMABLE_FIRST_3
    s.hubBal.data s.bondedBal.data s.vaultBal.data s.lockerBal.data

lemma derivedCore_leftTotal (A C : ℕ) (h b v l : Option ℕ) :
    (derivedCore A C h b v l).leftTotal =
      if A > (derivedCore A C h b v l).totalClaimed
      then A - (derivedCore A C h b v l).totalClaimed else 0 := rfl

/-- C2 counterexample: one failing read (bonded) among three successful
ones. Because no cell settles before the Promise.all join, the batch
rejection marks all four cells failed; the hub, vault and locker cells do
not retain the values 5, 7, 9 their reads returned. -/
theorem C2_counterexample_all_cells_failed :
    (fetchAllRun initState (Except.ok 5) (Except.error "boom") (Except.ok 7)
        (Except.ok 9) (Except.ok none)).hubBal ≠ successCell 5 ∧
    (fetchAllRun initState (Except.ok 5) (Except.error "boom") (Except.ok 7)
        (Except.ok 9) (Except.ok none)).vaultBal ≠ successCell 7 ∧
    (fetchAllRun initState (Except.ok 5) (Except.error "boom") (Except.ok 7)
        (Except.ok 9) (Except.ok none)).lockerBal ≠ successCell 9 ∧
    (fetchAllRun initState (Except.ok 5) (Except.error "boom") (Except.ok 7)
        (Except.ok 9) (Except.ok none)).hubBal = failedCell "boom" ∧
    (fetchAllRun initState (Except.ok 5) (Except.error "boom") (Except.ok 7)
        (Except.ok 9) (Except.ok none)).vaultBal = failedCell "boom" ∧
    (fetchAllRun initState (Except.ok 5) (Except.error "boom") (Except.ok 7)
        (Except.ok 9) (Except.ok none)).lockerBal = failedCell "boom" := by
  refine ⟨by decide, by decide, by decide, rfl, rfl, rfl⟩

/-- C2 amended: when any of the four balance reads rejects, the Promise.all
join rejects before any cell of this cycle settles, so all four balance
cells — including those whose reads succeeded — are moved to failed with
the batch's message and hold no data; the still-loading guard only protects
cells settled outside the current cycle. -/
theorem C2_amended_batch_rejection_fails_every_cell (s0 : AppState)
    (h b v l : Except String ℕ) (p : Except String (Option JsNum)) (msg : String)
    (hmsg : promiseAll4 h b v l = Except.error msg) :
    (fetchAllRun s0 h b v l p).hubBal = failedCell msg ∧
    (fetchAllRun s0 h b v l p).bondedBal = failedCell msg ∧
    (fetchAllRun s0 h b v l p).vaultBal = failedCell msg ∧
    (fetchAllRun s0 h b v l p).lockerBal = failedCell msg := by
  simp only [fetchAllRun, hmsg]
  refine ⟨?_, ?_, ?_, ?_⟩ <;>
    simp [refreshStart, settleIfLoading, pendingCell]

/-- C2 amended witness at a concrete single-failure batch. -/
theorem C2_amended_batch_rejection_fails_every_cell_witness :
    (fetchAllRun initState (Except.ok 5) (Except.error "boom") (Except.ok 7)
        (Except.ok 9) (Except.ok none)).hubBal = failedCell "boom" ∧
    (fetchAllRun initState (Except.ok 5) (Except.error "boom") (Except.ok 7)
        (Except.ok 9) (Except.ok none)).bondedBal = failedCell "boom" ∧
    (fetchAllRun initState (Except.ok 5) (Except.error "boom") (Except.ok 7)
        (Except.ok 9) (Except.ok none)).vaultBal = failedCell "boom" ∧
    (fetchAllRun initState (Except.ok 5) (Except.error "boom") (Except.ok 7)
        (Except.ok 9) (Except.ok none)).lockerBal = failedCell "boom" :=
  C2_amended_batch_rejection_fails_every_cell initState (Except.ok 5)
    (Except.error "boom") (Except.ok 7) (Except.ok 9) (Except.ok none) "boom" rfl

lemma derivedCore_allNone_totalClaimed :
    (derivedCore ALLOCATED_AIRDROP CLAIMABLE_FIRST_3
      none none none none).totalClaimed = ALLOCATED_AIRDROP := by
  rw [derivedCore_totalClaimed]
  simp only [Option.getD_none, Nat.add_zero]
  rw [if_pos (by norm_num [ALLOCATED_AIRDROP])]
  omega

lemma toUnitsQ_ALLOCATED_pos : (0 : ℚ) < toUnitsQ ALLOCATED_AIRDROP :=
  toUnitsQ_pos (by norm_num [ALLOCATED_AIRDROP])

lemma derivedCore_allNone_ratioBonded :
    (derivedCore ALLOCATED_AIRDROP CLAIMABLE_FIRST_3
      none none none none).ratioBondedOfClaimed = JsNum.fin 0 := by
  rw [derivedCore_ratioBondedOfClaimed, derivedCore_allNone_totalClaimed,
    if_pos toUnitsQ_ALLOCATED_pos]
  simp only [Option.getD_none, toUnitsQ_zero, zero_div]

lemma derivedCore_allNone_pctClaimedAll :
    (derivedCore ALLOCATED_AIRDROP CLAIMABLE_FIRST_3
      none none none none).pctClaimedAll = JsNum.fin 1 := by
  rw [derivedCore_pctClaimedAll, derivedCore_allNone_totalClaimed,
    if_pos toUnitsQ_ALLOCATED_pos, div_self (ne_of_gt toUnitsQ_ALLOCATED_pos)]

lemma derivedCore_allNone_leftTotal :
    (derivedCore ALLOCATED_AIRDROP CLAIMABLE_FIRST_3
      none none none none).leftTotal = 0 := by
  rw [derivedCore_leftTotal, derivedCore_allNone_totalClaimed, if_neg (lt_irrefl _)]

/-- C3 counterexample: bonded read fails with a network error while hub,
vault (a nonzero balance) and locker succeed. The claim expects the
BondedOverClaimed ratio to be the NaN sentinel and totalClaimed to be
computed from the succeeded vault value; instead the batch rejection
discards every value, all balances fall back to zero, totalClaimed becomes
the full allocation and the ratio is the finite value 0. -/
theorem C3_counterexample_ratio_is_zero_not_nan :
    (derivedOf (fetchAllRun initState (Except.ok 0) (Except.error "network error")
        (Except.ok 1000000000000000000000000) (Except.ok 0)
        (Except.ok none))).ratioBondedOfClaimed ≠ JsNum.nan ∧
    (derivedOf (fetchAllRun initState (Except.ok 0) (Except.error "network error")
        (Except.ok 1000000000000000000000000) (Except.ok 0)
        (Except.ok none))).ratioBondedOfClaimed = JsNum.fin 0 ∧
    (derivedOf (fetchAllRun initState (Except.ok 0) (Except.error "network error")
        (Except.ok 1000000000000000000000000) (Except.ok 0)
        (Except.ok none))).totalClaimed
      ≠ ALLOCATED_AIRDROP - 1000000000000000000000000 ∧
    (derivedOf (fetchAllRun initState (Except.ok 0) (Except.error "network error")
        (Except.ok 1000000000000000000000000) (Except.ok 0)
        (Except.ok none))).totalClaimed = ALLOCATED_AIRDROP := by
  have hF : derivedOf (fetchAllRun initState (Except.ok 0) (Except.error "network error")
      (Except.ok 1000000000000000000000000) (Except.ok 0) (Except.ok none))
        = derivedCore ALLOCATED_AIRDROP CLAIMABLE_FIRST_3 none none none none := rfl
  refine ⟨?_, ?_, ?_, ?_⟩
  · rw [hF, derivedCore_allNone_ratioBonded]
    decide
  · rw [hF, derivedCore_allNone_ratioBonded]
  · rw [hF, derivedCore_allNone_totalClaimed]
    norm_num [ALLOCATED_AIRDROP]
  · rw [hF, derivedCore_allNone_totalClaimed]

/-- C3 amended: when the bonded read fails (for any initial state and any
values the other three reads return), the batch rejects, every balance
falls back to zero in the derivation, so totalClaimed equals the full
allocation, leftTotal is zero, pctClaimedAll is exactly 1, and the
BondedOverClaimed ratio is the finite value 0 — not the NaN sentinel. -/
theorem C3_amended_bonded_failure_zero_fallback (s0 : AppState) (hv vv lv : ℕ)
    (p : Except String (Option JsNum)) (msg : String) :
    (derivedOf (fetchAllRun s0 (Except.ok hv) (Except.error msg) (Except.ok vv)
        (Except.ok lv) p)).totalClaimed = ALLOCATED_AIRDROP ∧
    (derivedOf (fetchAllRun s0 (Except.ok hv) (Except.error msg) (Except.ok vv)
        (Except.ok lv) p)).leftTotal = 0 ∧
    (derivedOf (fetchAllRun s0 (Except.ok hv) (Except.error msg) (Except.ok vv)
        (Except.ok lv) p)).pctClaimedAll = JsNum.fin 1 ∧
    (derivedOf (fetchAllRun s0 (Except.ok hv) (Except.error msg) (Except.ok vv)
        (Except.ok lv) p)).ratioBondedOfClaimed = JsNum.fin 0 := by
  have hF : derivedOf (fetchAllRun s0 (Except.ok hv) (Except.error msg) (Except.ok vv)
      (Except.ok lv) p) = derivedCore ALLOCATED_AIRDROP CLAIMABLE_FIRST_3
        none none none none := rfl
  rw [hF]
  exact ⟨derivedCore_allNone_totalClaimed, derivedCore_allNone_leftTotal,
    derivedCore_allNone_pctClaimedAll, derivedCore_allNone_ratioBonded⟩

/-- C7 counterexample: a cycle whose balance batch rejects never issues the
price read at all, contradicting the claim that the price read is issued
whether the batch resolved or rejected. -/
theorem C7_counterexample_no_price_read_on_rejection :
    Event.priceReadIssued ∉
      fetchAllTrace (Except.ok 0) (Except.error "rpc down") (Except.ok 0) (Except.ok 0) := by
  decide

/-- C7 amended: in every refresh cycle the price read is issued exactly
when the balance batch resolves successfully, and when it is issued it
occurs strictly after the batch settles. -/
theorem C7_amended_price_read_follows_successful_batch (h b v l : Except String ℕ) :
    (Event.priceReadIssued ∈ fetchAllTrace h b v l ↔
      ∃ t, promiseAll4 h b v l = Except.ok t) ∧
    (Event.priceReadIssued ∈ fetchAllTrace h b v l →
      ∃ pre post, fetchAllTrace h b v l = pre ++ Event.priceReadIssued :: post ∧
        Event.balanceBatchSettled true ∈ pre) := by
  cases hp : promiseAll4 h b v l with
  | ok t =>
      constructor
      · constructor
        · intro _
          exact ⟨t, rfl⟩
        · intro _
          simp [fetchAllTrace, hp]
      · intro _
        refine ⟨[Event.balanceReadsIssued, Event.balanceBatchSettled true],
          [Event.priceReadSettled], ?_, ?_⟩
        · simp [fetchAllTrace, hp]
        · simp
  | error e =>
      constructor
      · constructor
        · intro hmem
          simp [fetchAllTrace, hp] at hmem
        · rintro ⟨t, ht⟩
          exact absurd ht (by simp)
      · intro hmem
        simp [fetchAllTrace, hp] at hmem

/-- C7 amended witness: an all-successful batch issues the price read after
the batch-settled event. -/
theorem C7_amended_price_read_follows_successful_batch_witness :
    (Event.priceReadIssued ∈
        fetchAllTrace (Except.ok 1) (Except.ok 2) (Except.ok 3) (Except.ok 4) ↔
      ∃ t, promiseAll4 (Except.ok 1) (Except.ok 2) (Except.ok 3) (Except.ok 4)
        = Except.ok t) ∧
    (∃ pre post,
      fetchAllTrace (Except.ok 1) (Except.ok 2) (Except.ok 3) (Except.ok 4)
          = pre ++ Event.priceReadIssued :: post ∧
        Event.balanceBatchSettled true ∈ pre) :=
  ⟨(C7_amended_price_read_follows_successful_batch (Except.ok 1) (Except.ok 2)
      (Except.ok 3) (Except.ok 4)).1,
   (C7_amended_price_read_follows_successful_batch (Except.ok 1) (Except.ok 2)
      (Except.ok 3) (Except.ok 4)).2 (by decide)⟩

/-- C8 counterexample: starting a refresh from a state whose price cell had
already settled successfully leaves the price cell exactly as it was — it
is not reset to pending, contradicting the claim that the price cell is set
to pending at refresh start. -/
theorem C8_counterexample_price_cell_untouched :
    (refreshStart { initState with priceUSD := successCell (JsNum.fin 1) }).priceUSD
        ≠ pendingCell ∧
    (refreshStart { initState with priceUSD := successCell (JsNum.fin 1) }).priceUSD
        = successCell (JsNum.fin 1) := by
  exact ⟨by decide, rfl⟩

/-- C8 amended: at refresh start the four balance cells are set to pending
and the refreshing flag is set to true; the price cell is left unchanged —
it is only set to pending later, when the price read is issued after the
balance batch resolves successfully. -/
theorem C8_amended_refresh_start_frame (s : AppState) :
    (refreshStart s).hubBal = pendingCell ∧
    (refreshStart s).bondedBal = pendingCell ∧
    (refreshStart s).vaultBal = pendingCell ∧
    (refreshStart s).lockerBal = pendingCell ∧
    (refreshStart s).refreshing = true ∧
    (refreshStart s).priceUSD = s.priceUSD :=
  ⟨rfl, rfl, rfl, rfl, rfl, rfl⟩

/-- C9: the derivation is deterministic — two invocations on identical
settled inputs produce identical DerivedSnapshot records; the function
reads nothing but its four arguments and the two build-time constants. -/
theorem C9_derivation_deterministic (h b v l h2 b2 v2 l2 : Option ℕ)
    (hh : h = h2) (hb : b = b2) (hv : v = v2) (hl : l = l2) :
    derivedSnapshot h b v l = derivedSnapshot h2 b2 v2 l2 := by
  subst hh hb hv hl
  rfl

/-- C9 witness at one concrete input vector. -/
theorem C9_derivation_deterministic_witness :
    derivedSnapshot (some 1) none (some 2) (some 3)
      = derivedSnapshot (some 1) none (some 2) (some 3) :=
  C9_derivation_deterministic (some 1) none (some 2) (some 3)
    (some 1) none (some 2) (some 3) rfl rfl rfl rfl

/-- C10: the derivation read off the component state depends only on the
data of the four balance cells — two states agreeing there but differing
arbitrarily in the price cell (or anything else) yield identical
snapshots. -/
theorem C10_derivation_ignores_price (s1 s2 : AppState)
    (hh : s1.hubBal.data = s2.hubBal.data)
    (hb : s1.bondedBal.data = s2.bondedBal.data)
    (hv : s1.vaultBal.data = s2.vaultBal.data)
    (hl : s1.lockerBal.data = s2.lockerBal.data) :
    derivedOf s1 = derivedOf s2 := by
  unfold derivedOf
  rw [hh, hb, hv, hl]

/-- C10 witness: two states whose price cells differ (one succeeded, one
failed) produce the same snapshot. -/
theorem C10_derivation_ignores_price_witness :
    derivedOf { initState with priceUSD := successCell (JsNum.fin 5) }
      = derivedOf { initState with priceUSD := failedCell "down" } :=
  C10_derivation_ignores_price
    { initState with priceUSD := successCell (JsNum.fin 5) }
    { initState with priceUSD := failedCell "down" } rfl rfl rfl rfl
